import Mathlib

/-!
Verification development for the sandboxed multi-language code execution
engine of the AiAgent repository.

The repository contains two implementations of the execution core, both
named `execute_code_in_docker`:
  * `src/ai-agent-project/src/app.py` (the enhanced implementation),
    modelled in namespace `App`;
  * `src/ai-agent-project/src/server.py` (the legacy implementation),
    modelled in namespace `Server`.

External effects (directory creation, file writes, directory removal by
`tempfile.TemporaryDirectory.__exit__`, container spawns through
`subprocess.run`, the kill of the local `docker` client performed by
`subprocess.run` when its timeout expires) are recorded as an explicit
event trace; the nondeterministic behaviour of the spawned process is an
`Env`/outcome parameter.
-/

/-- Python `str.isspace`, the exact character set `str.strip()` removes:
U+0009-U+000D, U+001C-U+001F, U+0020, U+0085, U+00A0, U+1680,
U+2000-U+200A, U+2028, U+2029, U+202F, U+205F and U+3000. -/
def isPySpace (c : Char) : Bool :=
  let n := c.toNat
  decide (9 ≤ n ∧ n ≤ 13) || decide (28 ≤ n ∧ n ≤ 32) || n == 133 || n == 160 ||
  n == 5760 || decide (8192 ≤ n ∧ n ≤ 8202) || n == 8232 || n == 8233 ||
  n == 8239 || n == 8287 || n == 12288

/-- Python `str.strip()` on the underlying character list: drop whitespace
from both ends. -/
def pyStripList (l : List Char) : List Char :=
  ((l.dropWhile isPySpace).reverse.dropWhile isPySpace).reverse

/-- Python `str.strip()`. -/
def pyStrip (s : String) : String :=
  String.mk (pyStripList s.data)

/-- Python `str.lower()` on one ASCII character (the registry keys and the
language identifiers relevant here are ASCII). -/
def lowerChar (c : Char) : Char :=
  if 65 ≤ c.toNat ∧ c.toNat ≤ 90 then Char.ofNat (c.toNat + 32) else c

/-- Python `str.lower()` (ASCII). -/
def asciiLower (s : String) : String :=
  String.mk (s.data.map lowerChar)

/-- UTF-8 encoding of one character, as Python `str.encode()` produces it. -/
def utf8EncodeChar (c : Char) : List Nat :=
  let n := c.toNat
  if n < 128 then [n]
  else if n < 2048 then [192 + n / 64, 128 + n % 64]
  else if n < 65536 then [224 + n / 4096, 128 + n / 64 % 64, 128 + n % 64]
  else [240 + n / 262144, 128 + n / 4096 % 64, 128 + n / 64 % 64, 128 + n % 64]

/-- Python `str.encode()` (UTF-8), as a byte list. -/
def utf8Encode (s : String) : List Nat :=
  s.data.flatMap utf8EncodeChar

/-! ### MD5 (`hashlib.md5`), over `Nat` with explicit reduction mod 2^32 -/

/-- Reduce modulo 2^32. -/
def w32 (n : Nat) : Nat := n % 4294967296

/-- 32-bit left rotation of `x` (assumed < 2^32) by `s` bits. -/
def rotl32 (x s : Nat) : Nat :=
  w32 (x * 2 ^ s) + x % 4294967296 / 2 ^ (32 - s)

/-- Bitwise complement within 32 bits. -/
def not32 (x : Nat) : Nat := x ^^^ 4294967295

/-- The MD5 sine-derived round constants. -/
def md5K : List Nat :=
  [0xd76aa478, 0xe8c7b756, 0x242070db, 0xc1bdceee,
   0xf57c0faf, 0x4787c62a, 0xa8304613, 0xfd469501,
   0x698098d8, 0x8b44f7af, 0xffff5bb1, 0x895cd7be,
   0x6b901122, 0xfd987193, 0xa679438e, 0x49b40821,
   0xf61e2562, 0xc040b340, 0x265e5a51, 0xe9b6c7aa,
   0xd62f105d, 0x02441453, 0xd8a1e681, 0xe7d3fbc8,
   0x21e1cde6, 0xc33707d6, 0xf4d50d87, 0x455a14ed,
   0xa9e3e905, 0xfcefa3f8, 0x676f02d9, 0x8d2a4c8a,
   0xfffa3942, 0x8771f681, 0x6d9d6122, 0xfde5380c,
   0xa4beea44, 0x4bdecfa9, 0xf6bb4b60, 0xbebfbc70,
   0x289b7ec6, 0xeaa127fa, 0xd4ef3085, 0x04881d05,
   0xd9d4d039, 0xe6db99e5, 0x1fa27cf8, 0xc4ac5665,
   0xf4292244, 0x432aff97, 0xab9423a7, 0xfc93a039,
   0x655b59c3, 0x8f0ccc92, 0xffeff47d, 0x85845dd1,
   0x6fa87e4f, 0xfe2ce6e0, 0xa3014314, 0x4e0811a1,
   0xf7537e82, 0xbd3af235, 0x2ad7d2bb, 0xeb86d391]

/-- The MD5 per-round left-rotation amounts. -/
def md5S : List Nat :=
  [7, 12, 17, 22, 7, 12, 17, 22, 7, 12, 17, 22, 7, 12, 17, 22,
   5, 9, 14, 20, 5, 9, 14, 20, 5, 9, 14, 20, 5, 9, 14, 20,
   4, 11, 16, 23, 4, 11, 16, 23, 4, 11, 16, 23, 4, 11, 16, 23,
   6, 10, 15, 21, 6, 10, 15, 21, 6, 10, 15, 21, 6, 10, 15, 21]

/-- MD5 padding: append `0x80`, zero-fill to 56 mod 64, then the original
bit length as 8 little-endian bytes (mod 2^64). -/
def md5Pad (msg : List Nat) : List Nat :=
  let len := msg.length
  let z := (120 - (len + 1) % 64) % 64
  msg ++ [128] ++ List.replicate z 0 ++ (List.range 8).map (fun i => len * 8 / 256 ^ i % 256)

/-- Split a byte list into 64-byte chunks. -/
def chunks64 (l : List Nat) : List (List Nat) :=
  if h : l.length = 0 then []
  else l.take 64 :: chunks64 (l.drop 64)
termination_by l.length
decreasing_by
  simp only [List.length_drop]
  omega

/-- Little-endian 32-bit word `i` of a 64-byte chunk. -/
def leWord (chunk : List Nat) (i : Nat) : Nat :=
  chunk.getD (4 * i) 0 + 256 * chunk.getD (4 * i + 1) 0 +
    65536 * chunk.getD (4 * i + 2) 0 + 16777216 * chunk.getD (4 * i + 3) 0

/-- One MD5 round `i` (0 ≤ i < 64) on the working quadruple. -/
def md5Step (M : Nat → Nat) (abcd : Nat × Nat × Nat × Nat) (i : Nat) :
    Nat × Nat × Nat × Nat :=
  let a := abcd.1
  let b := abcd.2.1
  let c := abcd.2.2.1
  let d := abcd.2.2.2
  let f :=
    if i < 16 then (b &&& c) ||| (not32 b &&& d)
    else if i < 32 then (d &&& b) ||| (not32 d &&& c)
    else if i < 48 then b ^^^ c ^^^ d
    else c ^^^ (b ||| not32 d)
  let g :=
    if i < 16 then i
    else if i < 32 then (5 * i + 1) % 16
    else if i < 48 then (3 * i + 5) % 16
    else 7 * i % 16
  let f2 := w32 (f + a + md5K.getD i 0 + M g)
  (d, w32 (b + rotl32 f2 (md5S.getD i 0)), b, c)

/-- The running MD5 state (four 32-bit words). -/
structure MD5State where
  a : Nat
  b : Nat
  c : Nat
  d : Nat
deriving Repr, DecidableEq

/-- The MD5 initialization vector. -/
def md5Init : MD5State := ⟨0x67452301, 0xefcdab89, 0x98badcfe, 0x10325476⟩

/-- Process one 64-byte chunk. -/
def md5Chunk (st : MD5State) (chunk : List Nat) : MD5State :=
  let r := (List.range 64).foldl (md5Step (leWord chunk)) (st.a, st.b, st.c, st.d)
  ⟨w32 (st.a + r.1), w32 (st.b + r.2.1), w32 (st.c + r.2.2.1), w32 (st.d + r.2.2.2)⟩

/-- A 32-bit word as four little-endian bytes. -/
def wordLEBytes (w : Nat) : List Nat :=
  [w % 256, w / 256 % 256, w / 65536 % 256, w / 16777216 % 256]

/-- `hashlib.md5(msg).digest()`: the 16-byte MD5 digest. -/
def md5Digest (msg : List Nat) : List Nat :=
  let st := (chunks64 (md5Pad msg)).foldl md5Chunk md5Init
  wordLEBytes st.a ++ wordLEBytes st.b ++ wordLEBytes st.c ++ wordLEBytes st.d

/-- Lowercase hexadecimal digit for a nibble. -/
def hexChar (n : Nat) : Char :=
  match n with
  | 0 => '0' | 1 => '1' | 2 => '2' | 3 => '3' | 4 => '4' | 5 => '5' | 6 => '6' | 7 => '7'
  | 8 => '8' | 9 => '9' | 10 => 'a' | 11 => 'b' | 12 => 'c' | 13 => 'd' | 14 => 'e'
  | 15 => 'f' | _ => '0'

/-- The sixteen lowercase hexadecimal digits. -/
def hexDigits : List Char :=
  (List.range 16).map hexChar

/-- One byte as two lowercase hex characters. -/
def byteHex (b : Nat) : List Char :=
  [hexChar (b / 16 % 16), hexChar (b % 16)]

/-- `hashlib.md5(msg).hexdigest()`. -/
def md5Hexdigest (msg : List Nat) : String :=
  String.mk ((md5Digest msg).flatMap byteHex)

/-- `app.py:210`: `code_hash = hashlib.md5(code.encode()).hexdigest()[:8]`.
The `[:8]` truncation is taken on the character list of the hex digest. -/
def code_hash (code : String) : String :=
  String.mk (((md5Digest (utf8Encode code)).flatMap byteHex).take 8)

/-! ### Data model shared by both implementations -/

/-- One entry of the language registry: `{filename, docker_image, run_command}`. -/
structure LangConfig where
  filename : String
  docker_image : String
  run_command : List String
deriving Repr, DecidableEq

/-- Externally visible actions performed by one call of the execution core.
`killClientProcess` is the kill of the local `docker` CLI process that
`subprocess.run` performs when its timeout expires; `containerKill` would be a
container-level `docker kill`/`docker stop` (neither implementation ever emits
it). -/
inductive Event where
  | mkdir (path : String)
  | writeFile (path : String) (content : String)
  | removeTree (path : String)
  | spawnContainer (cmd : List String)
  | killClientProcess
  | containerKill
deriving Repr, DecidableEq

/-- Outcome of `subprocess.run` on the docker invocation, as seen by `app.py`:
normal completion with exit code and captured streams (with the wall-clock
elapsed time measured right after), `subprocess.TimeoutExpired`,
`FileNotFoundError` (docker binary missing), or any other exception. -/
inductive RunOutcome where
  | completed (returncode : Int) (stdout stderr : String) (elapsed : Rat)
  | timedOut
  | spawnError
  | otherFault (msg : String) (elapsed : Rat)
deriving Repr, DecidableEq

/-- The nondeterministic environment of one `app.py` call: whether the
source-file write raises (with the exception text), and what the spawned
process does. -/
structure Env where
  writeFault : Option String
  outcome : RunOutcome
deriving Repr, DecidableEq

/-- Python's banker's rounding of a rational to an integer
(`round` at ties goes to the even integer). -/
def roundHalfEven (q : Rat) : Int :=
  let f := q.floor
  if q - f < 1 / 2 then f
  else if q - f > 1 / 2 then f + 1
  else if f % 2 = 0 then f else f + 1

/-- Python `round(x, 3)`. -/
def pyRound3 (q : Rat) : Rat :=
  (roundHalfEven (q * 1000) : Rat) / 1000

/-- The dictionary returned by `app.py`'s `execute_code_in_docker`:
`{output, success, execution_time}` plus the `code_hash` key, which only the
normal-completion branch includes (`none` models an absent key). -/
structure ExecResult where
  output : String
  success : Bool
  execution_time : Rat
  code_hash : Option String
deriving Repr, DecidableEq

namespace App

/-- `app.py:213-239`: the `language_configs` dictionary. -/
def language_configs : List (String × LangConfig) :=
  [("python", ⟨"code.py", "python:3.9-slim", ["python", "/app/code.py"]⟩),
   ("cpp", ⟨"code.cpp", "gcc:latest",
      ["bash", "-c", "cd /app && g++ -o code.out code.cpp && ./code.out"]⟩),
   ("java", ⟨"Main.java", "openjdk:11-jdk-slim",
      ["bash", "-c", "cd /app && javac Main.java && java Main"]⟩),
   ("javascript", ⟨"code.js", "node:16-slim", ["node", "/app/code.js"]⟩),
   ("go", ⟨"main.go", "golang:1.19-alpine", ["go", "run", "/app/main.go"]⟩)]

/-- `language in language_configs` / `language_configs[language]`. -/
def lookupConfig (language : String) : Option LangConfig :=
  (language_configs.find? (fun p => p.1 == language)).map Prod.snd

/-- `app.py:266-276`: the docker invocation with its fixed security flags.
It depends only on the workspace path and the language profile. -/
def docker_command (temp_dir : String) (config : LangConfig) : List String :=
  ["docker", "run", "--rm",
   "--memory=128m",
   "--memory-swap=128m",
   "--cpus=0.5",
   "--network=none",
   "--cap-drop=ALL",
   "--security-opt", "no-new-privileges",
   "-v", temp_dir ++ ":/app:ro",
   config.docker_image] ++ config.run_command

/-- `app.py:203-316`: `execute_code_in_docker(code, language, timeout=15)`.
`temp_dir` is the fresh directory name chosen by `tempfile.TemporaryDirectory`;
the context manager's `__exit__` removal of the directory tree is the trailing
`Event.removeTree` on every path that entered the `with` block. -/
def execute_code_in_docker (code language : String) (timeout : Nat)
    (temp_dir : String) (env : Env) : ExecResult × List Event :=
  match lookupConfig language with
  | none =>
      ({ output := "Unsupported language: " ++ language, success := false,
         execution_time := 0, code_hash := none }, [])
  | some config =>
      let file_path := temp_dir ++ "/" ++ config.filename
      match env.writeFault with
      | some e =>
          ({ output := "Failed to write code file: " ++ e, success := false,
             execution_time := 0, code_hash := none },
           [Event.mkdir temp_dir, Event.removeTree temp_dir])
      | none =>
          let cmd := docker_command temp_dir config
          let pre := [Event.mkdir temp_dir, Event.writeFile file_path code,
                      Event.spawnContainer cmd]
          match env.outcome with
          | RunOutcome.completed rc stdout stderr elapsed =>
              let succ := rc == 0
              let output :=
                if succ then stdout
                else "Error (Code " ++ toString rc ++ "):\n" ++ stderr
              ({ output := if pyStrip output == "" then "Execution completed (no output)"
                           else pyStrip output,
                 success := succ, execution_time := pyRound3 elapsed,
                 code_hash := some (code_hash code) },
               pre ++ [Event.removeTree temp_dir])
          | RunOutcome.timedOut =>
              ({ output := "Execution timed out after " ++ toString timeout ++ " seconds",
                 success := false, execution_time := (timeout : Rat),
                 code_hash := none },
               pre ++ [Event.killClientProcess, Event.removeTree temp_dir])
          | RunOutcome.spawnError =>
              ({ output := "Docker not found. Please install Docker to execute code.",
                 success := false, execution_time := 0, code_hash := none },
               pre ++ [Event.removeTree temp_dir])
          | RunOutcome.otherFault msg elapsed =>
              ({ output := "Execution error: " ++ msg, success := false,
                 execution_time := elapsed, code_hash := none },
               pre ++ [Event.removeTree temp_dir])

/-- The JSON body of a `/execute` request, restricted to the fields the
endpoint reads plus `timeoutSeconds` (which the spec documents). `none`
models an absent key. -/
structure Request where
  code : Option String
  language : Option String
  timeoutSeconds : Option Nat
deriving Repr, DecidableEq

/-- An endpoint response: the execution result, or a 400-style rejection. -/
inductive Response where
  | ok (result : ExecResult)
  | badRequest (error : String)
deriving Repr, DecidableEq

/-- The `output` carried by a response (the rejection text for `badRequest`). -/
def Response.outputOf : Response → String
  | Response.ok r => r.output
  | Response.badRequest e => e

/-- `app.py:318-362`: the `/execute` endpoint body after authentication.
`code = data.get("code", "").strip()`, `language = data.get("language",
"python").lower()`, the emptiness and 10000-character checks, then
`execute_code_in_docker(code, language)` — note the call passes no timeout,
so the Python default `15` is always used and `req.timeoutSeconds` is never
read. -/
def execute (req : Request) (temp_dir : String) (env : Env) :
    Response × List Event :=
  let code := pyStrip (req.code.getD "")
  let language := asciiLower (req.language.getD "python")
  if code == "" then (Response.badRequest "No code provided", [])
  else if code.length > 10000 then
    (Response.badRequest "Code too large (max 10KB)", [])
  else
    let r := execute_code_in_docker code language 15 temp_dir env
    (Response.ok r.1, r.2)

end App

namespace Server

/-- `server.py:71-91`: the if/elif chain choosing filename, image and run
command. -/
def lookupConfig (language : String) : Option LangConfig :=
  if language == "python" then
    some ⟨"code.py", "python:3.9-slim", ["python", "/app/code.py"]⟩
  else if language == "cpp" then
    some ⟨"code.cpp", "gcc:latest",
      ["bash", "-c", "g++ /app/code.cpp -o /app/code.out && /app/code.out"]⟩
  else if language == "java" then
    some ⟨"Main.java", "openjdk:11-jdk-slim",
      ["bash", "-c", "javac /app/Main.java && java -cp /app Main"]⟩
  else none

/-- Outcome of `subprocess.run` as `server.py` handles it: normal completion
or `subprocess.TimeoutExpired` (its hardcoded budget is 10 seconds). -/
inductive Outcome where
  | completed (returncode : Int) (stdout stderr : String)
  | timedOut
deriving Repr, DecidableEq

/-- `server.py:66-111`: `execute_code_in_docker(code, language)`. The source
file is written at `filename` relative to the server's working directory
`cwd` (`os.path.abspath`), mounted read-write, and never removed. -/
def execute_code_in_docker (code language : String) (cwd : String)
    (outcome : Outcome) : String × List Event :=
  match lookupConfig language with
  | none => ("Unsupported language.", [])
  | some config =>
      let abs_path := cwd ++ "/" ++ config.filename
      let cmd := ["docker", "run", "--rm", "-v",
                  abs_path ++ ":/app/" ++ config.filename,
                  config.docker_image] ++ config.run_command
      let events := [Event.writeFile abs_path code, Event.spawnContainer cmd]
      match outcome with
      | Outcome.completed rc stdout stderr =>
          (if rc == 0 then
             (if pyStrip stdout == "" then "Execution completed successfully."
              else stdout)
           else "Error:\n" ++ stderr, events)
      | Outcome.timedOut =>
          ("Execution timed out!", events ++ [Event.killClientProcess])

/-- `server.py:113-121`: the `/execute` endpoint body after authentication.
`language = data.get("language", "python")` — no lowercasing. -/
def execute (code : String) (language : Option String) (cwd : String)
    (outcome : Outcome) : String × List Event :=
  execute_code_in_docker code (language.getD "python") cwd outcome

end Server

/-! ### Effect interpretation -/

/-- Interpret one event on a host filesystem modelled as the list of existing
paths. `removeTree p` (the `TemporaryDirectory` cleanup) deletes `p` and
everything under it. -/
def applyEvent (fs : List String) : Event → List String
  | Event.mkdir p => p :: fs
  | Event.writeFile p _ => p :: fs
  | Event.removeTree p =>
      fs.filter (fun q => !(q == p || (p ++ "/").isPrefixOf q))
  | Event.spawnContainer _ => fs
  | Event.killClientProcess => fs
  | Event.containerKill => fs

/-- Run a whole event trace on a filesystem. -/
def runEvents (fs : List String) (events : List Event) : List String :=
  events.foldl applyEvent fs

/-- Modelled from the spec: the container runtime's termination behaviour is
external to the source. Per the spec, "the runtime's auto-removal flag alone
does not guarantee termination of a still-running process": for a guest
program that does not terminate on its own (the deadline-expiry case), the
container keeps running after the call returns unless the call issued a
container-level kill; killing the local `docker` client process (what
`subprocess.run` does on timeout) does not stop it. -/
def containerOutlivesCall (events : List Event) : Bool :=
  !(events.contains Event.containerKill)

/-- The result component of one `app.py` execution. -/
def appResult (code language : String) (timeout : Nat) (temp_dir : String)
    (env : Env) : ExecResult :=
  (App.execute_code_in_docker code language timeout temp_dir env).1

/-- The event trace of one `app.py` execution. -/
def appEvents (code language : String) (timeout : Nat) (temp_dir : String)
    (env : Env) : List Event :=
  (App.execute_code_in_docker code language timeout temp_dir env).2

/-- The fixed security posture the spec requires of a container invocation
for workspace `temp_dir`: memory ceiling 128 MiB, swap disabled (equal
memory-swap total), CPU capped at 0.5 core, no network, all capabilities
dropped, no-new-privileges, container auto-removed, workspace mounted
read-only. -/
def securityLocked (temp_dir : String) (cmd : List String) : Prop :=
  "--rm" ∈ cmd ∧ "--memory=128m" ∈ cmd ∧ "--memory-swap=128m" ∈ cmd ∧
  "--cpus=0.5" ∈ cmd ∧ "--network=none" ∈ cmd ∧ "--cap-drop=ALL" ∈ cmd ∧
  ["--security-opt", "no-new-privileges"] <:+: cmd ∧
  ["-v", temp_dir ++ ":/app:ro"] <:+: cmd

/-- Whether an event is a container spawn. -/
def isSpawn : Event → Bool
  | Event.spawnContainer _ => true
  | _ => false

/-- The claim's description of a compiled-language run command: a single
compound shell invocation (`bash -c script`). -/
def compoundShell (cmd : List String) : Prop :=
  ∃ s, cmd = ["bash", "-c", s]

/-! ### Helper lemmas -/

/-- A list containing a non-whitespace character does not strip to empty. -/
theorem pyStripList_ne_nil {l : List Char} (h : ∃ c ∈ l, isPySpace c = false) :
    pyStripList l ≠ [] := by
  intro hnil
  obtain ⟨c, hc, hcs⟩ := h
  unfold pyStripList at hnil
  rw [List.reverse_eq_nil_iff, List.dropWhile_eq_nil_iff] at hnil
  have hcd : c ∈ l.dropWhile isPySpace := by
    have hsplit : c ∈ l.takeWhile isPySpace ++ l.dropWhile isPySpace := by
      rw [List.takeWhile_append_dropWhile]; exact hc
    rcases List.mem_append.1 hsplit with h1 | h2
    · exact absurd (List.mem_takeWhile_imp h1) (by simp [hcs])
    · exact h2
  have := hnil c (List.mem_reverse.2 hcd)
  simp [hcs] at this

/-- A string containing a non-whitespace character does not strip to `""`. -/
theorem pyStrip_ne_empty {s : String} (h : ∃ c ∈ s.data, isPySpace c = false) :
    (pyStrip s == "") = false := by
  rw [beq_eq_false_iff_ne]
  intro heq
  have : pyStripList s.data = [] := by
    have := congrArg String.data heq
    simpa [pyStrip] using this
  exact pyStripList_ne_nil h this

/-- The classifier's error message always contains the non-space `'E'`. -/
theorem errorMessage_has_nonspace (rc : Int) (stderr : String) :
    ∃ c ∈ ("Error (Code " ++ toString rc ++ "):\n" ++ stderr).data,
      isPySpace c = false := by
  refine ⟨'E', ?_, by decide⟩
  simp only [String.data_append, List.mem_append]
  left; left; left
  decide

/-- A path equal to the removed root, or lying under it, is not in the
filesystem after `removeTree`. -/
theorem not_mem_removeTree (l : List String) (d p : String)
    (hp : p = d ∨ (d ++ "/").isPrefixOf p = true) :
    p ∉ applyEvent l (Event.removeTree d) := by
  intro hmem
  simp only [applyEvent] at hmem
  rw [List.mem_filter] at hmem
  obtain ⟨-, hpred⟩ := hmem
  rcases hp with rfl | h
  · simp at hpred
  · rw [h] at hpred; simp at hpred

/-- Packing a valid code point gives it back. -/
theorem toNat_ofNat_valid {n : Nat} (h : n < 55296) :
    (Char.ofNat n).toNat = n := by
  unfold Char.ofNat
  rw [dif_pos (Or.inl h : n.isValidChar)]
  rfl

/-- ASCII lowercasing one character is idempotent. -/
theorem lowerChar_idem (c : Char) : lowerChar (lowerChar c) = lowerChar c := by
  unfold lowerChar
  by_cases h : 65 ≤ c.toNat ∧ c.toNat ≤ 90
  · rw [if_pos h]
    have hv : (Char.ofNat (c.toNat + 32)).toNat = c.toNat + 32 :=
      toNat_ofNat_valid (by omega)
    rw [if_neg (by rw [hv]; omega)]
  · rw [if_neg h, if_neg h]

/-- ASCII lowercasing a string is idempotent. -/
theorem asciiLower_idem (s : String) : asciiLower (asciiLower s) = asciiLower s := by
  unfold asciiLower
  simp only [List.map_map]
  congr 1
  exact List.map_congr_left (fun c _ => lowerChar_idem c)

/-- `byteHex` always yields two characters. -/
theorem length_flatMap_byteHex (l : List Nat) :
    (l.flatMap byteHex).length = 2 * l.length := by
  induction l with
  | nil => rfl
  | cons b t ih =>
      simp only [List.flatMap_cons, List.length_append, List.length_cons, ih, byteHex]
      simp; omega

/-- The MD5 digest is always 16 bytes. -/
theorem md5Digest_length (msg : List Nat) : (md5Digest msg).length = 16 := by
  unfold md5Digest wordLEBytes
  simp

/-- Every hex digit produced by `hexChar` is a lowercase hex digit. -/
theorem hexChar_contains (n : Nat) : hexDigits.contains (hexChar n) = true := by
  unfold hexChar
  split <;> decide

/-! ### Claim theorems -/

/-- C1 (amended): for every normally exiting container run, exit code 0 with
stdout that has non-whitespace content gives success with output the trimmed
stdout; exit code 0 with whitespace-only stdout gives success with output
"Execution completed (no output)"; a non-zero exit code gives failure with
output the whitespace-trimmed form of "Error (Code {exitCode}):\n{stderr}"
(the code applies `.strip()` to the error text as well). -/
theorem C1_classifier (code language : String) (timeout : Nat) (temp_dir : String)
    (rc : Int) (stdout stderr : String) (elapsed : Rat) (config : LangConfig)
    (hl : App.lookupConfig language = some config) :
    ((rc = 0 ∧ pyStrip stdout ≠ "") →
        (appResult code language timeout temp_dir
            ⟨none, RunOutcome.completed rc stdout stderr elapsed⟩).success = true
        ∧ (appResult code language timeout temp_dir
            ⟨none, RunOutcome.completed rc stdout stderr elapsed⟩).output = pyStrip stdout)
  ∧ ((rc = 0 ∧ pyStrip stdout = "") →
        (appResult code language timeout temp_dir
            ⟨none, RunOutcome.completed rc stdout stderr elapsed⟩).success = true
        ∧ (appResult code language timeout temp_dir
            ⟨none, RunOutcome.completed rc stdout stderr elapsed⟩).output
              = "Execution completed (no output)")
  ∧ (rc ≠ 0 →
        (appResult code language timeout temp_dir
            ⟨none, RunOutcome.completed rc stdout stderr elapsed⟩).success = false
        ∧ (appResult code language timeout temp_dir
            ⟨none, RunOutcome.completed rc stdout stderr elapsed⟩).output
              = pyStrip ("Error (Code " ++ toString rc ++ "):\n" ++ stderr)) := by
  refine ⟨?_, ?_, ?_⟩
  · rintro ⟨rfl, hne⟩
    have hbe : (pyStrip stdout == "") = false := beq_eq_false_iff_ne.2 hne
    constructor <;>
      simp [appResult, App.execute_code_in_docker, hl, hbe]
  · rintro ⟨rfl, he⟩
    constructor <;>
      simp [appResult, App.execute_code_in_docker, hl, he]
  · intro hne
    have hbe : (rc == 0) = false := beq_eq_false_iff_ne.2 hne
    have hstrip : (pyStrip ("Error (Code " ++ toString rc ++ "):\n" ++ stderr) == "") = false :=
      pyStrip_ne_empty (errorMessage_has_nonspace rc stderr)
    constructor <;>
      simp [appResult, App.execute_code_in_docker, hl, hbe, hstrip]

/-- Witness for C1 at a concrete successful run. -/
theorem C1_witness :
    (appResult "print('hi')" "python" 15 "/tmp/w"
        ⟨none, RunOutcome.completed 0 "hi\n" "" 1⟩).success = true
  ∧ (appResult "print('hi')" "python" 15 "/tmp/w"
        ⟨none, RunOutcome.completed 0 "hi\n" "" 1⟩).output = pyStrip "hi\n" :=
  (C1_classifier "print('hi')" "python" 15 "/tmp/w" 0 "hi\n" "" 1
      ⟨"code.py", "python:3.9-slim", ["python", "/app/code.py"]⟩ (by decide)).1
    ⟨rfl, by decide⟩

/-- C1 counterexample: with exit code 1 and empty stderr the returned output
is the stripped "Error (Code 1):", not the claim's exact
"Error (Code 1):\n{stderr}" = "Error (Code 1):\n". -/
theorem C1_counterexample :
    (appResult "import sys; sys.exit(1)" "python" 15 "/tmp/w"
        ⟨none, RunOutcome.completed 1 "" "" 1⟩).output = "Error (Code 1):"
  ∧ (appResult "import sys; sys.exit(1)" "python" 15 "/tmp/w"
        ⟨none, RunOutcome.completed 1 "" "" 1⟩).output ≠ "Error (Code 1):\n" := by
  constructor <;> decide

/-- C2 (amended, enhanced implementation): after every call of `app.py`'s
`execute_code_in_docker` — on every exit path — the per-execution workspace
directory and everything under it (in particular the written source file) are
absent from the host filesystem, because the `TemporaryDirectory` context
manager removes the tree before the function returns; cleanup is performed by
the operation itself. (The legacy `server.py` implementation instead leaves
the written source file behind; see the counterexample.) -/
theorem C2_workspace_absent (code language : String) (timeout : Nat)
    (temp_dir : String) (env : Env) (fs : List String) (p : String)
    (hp : p = temp_dir ∨ (temp_dir ++ "/").isPrefixOf p = true)
    (hfresh : p ∉ fs) :
    p ∉ runEvents fs (appEvents code language timeout temp_dir env) := by
  unfold appEvents
  cases hl : App.lookupConfig language with
  | none => simpa [App.execute_code_in_docker, hl, runEvents] using hfresh
  | some config =>
    cases hw : env.writeFault with
    | some e =>
        simp only [App.execute_code_in_docker, hl, hw, runEvents,
          List.foldl_cons, List.foldl_nil]
        exact not_mem_removeTree _ _ _ hp
    | none =>
        cases ho : env.outcome with
        | completed rc out err el =>
            simp only [App.execute_code_in_docker, hl, hw, ho, runEvents,
              List.cons_append, List.nil_append, List.foldl_cons, List.foldl_nil]
            exact not_mem_removeTree _ _ _ hp
        | timedOut =>
            simp only [App.execute_code_in_docker, hl, hw, ho, runEvents,
              List.cons_append, List.nil_append, List.foldl_cons, List.foldl_nil]
            exact not_mem_removeTree _ _ _ hp
        | spawnError =>
            simp only [App.execute_code_in_docker, hl, hw, ho, runEvents,
              List.cons_append, List.nil_append, List.foldl_cons, List.foldl_nil]
            exact not_mem_removeTree _ _ _ hp
        | otherFault msg el =>
            simp only [App.execute_code_in_docker, hl, hw, ho, runEvents,
              List.cons_append, List.nil_append, List.foldl_cons, List.foldl_nil]
            exact not_mem_removeTree _ _ _ hp

/-- Witness for C2 at a concrete successful run. -/
theorem C2_witness :
    "/tmp/x" ∉ runEvents []
      (appEvents "print(1)" "python" 15 "/tmp/x"
        ⟨none, RunOutcome.completed 0 "1\n" "" 1⟩) :=
  C2_workspace_absent "print(1)" "python" 15 "/tmp/x"
    ⟨none, RunOutcome.completed 0 "1\n" "" 1⟩ [] "/tmp/x" (Or.inl rfl) (by simp)

/-- C2 counterexample: the legacy `server.py` implementation writes the
source file into the server's working directory and never removes it, so
after the call the written source file is still present. -/
theorem C2_counterexample :
    "/srv/app/code.py" ∈ runEvents []
      (Server.execute_code_in_docker "print(1)" "python" "/srv/app"
        (Server.Outcome.completed 0 "1\n" "")).2 := by
  decide

/-- C4: on deadline expiry `app.py` merely catches `TimeoutExpired` (after
`subprocess.run` kills the local `docker` client process) and returns the
timeout result; it never issues a container-level kill, so — per the
spec-modelled runtime semantics — the container of a still-running program
outlives the call, contradicting the claim. -/
theorem C4_container_not_terminated :
    containerOutlivesCall
        (appEvents "while True: pass" "python" 2 "/tmp/x" ⟨none, RunOutcome.timedOut⟩) = true
  ∧ (appEvents "while True: pass" "python" 2 "/tmp/x"
        ⟨none, RunOutcome.timedOut⟩).contains Event.killClientProcess = true
  ∧ (appResult "while True: pass" "python" 2 "/tmp/x"
        ⟨none, RunOutcome.timedOut⟩).output = "Execution timed out after 2 seconds" := by
  refine ⟨by decide, by decide, by decide⟩

/-- C7: a request naming a language outside the registry is rejected by both
implementations with no filesystem or container event at all: no directory
is made, no file is written, no container is spawned. -/
theorem C7_unsupported_rejected (code language : String) (timeout : Nat)
    (temp_dir cwd : String) (env : Env) (outcome : Server.Outcome)
    (hApp : App.lookupConfig language = none)
    (hSrv : Server.lookupConfig language = none) :
    App.execute_code_in_docker code language timeout temp_dir env
        = ({ output := "Unsupported language: " ++ language, success := false,
             execution_time := 0, code_hash := none }, [])
  ∧ Server.execute_code_in_docker code language cwd outcome
        = ("Unsupported language.", []) := by
  constructor
  · simp [App.execute_code_in_docker, hApp]
  · simp [Server.execute_code_in_docker, hSrv]

/-- Witness for C7 at the unregistered language "ruby". -/
theorem C7_witness :
    App.execute_code_in_docker "puts 1" "ruby" 15 "/tmp/w"
        ⟨none, RunOutcome.completed 0 "1\n" "" 1⟩
        = ({ output := "Unsupported language: ruby", success := false,
             execution_time := 0, code_hash := none }, [])
  ∧ Server.execute_code_in_docker "puts 1" "ruby" "/srv"
        (Server.Outcome.completed 0 "1\n" "")
        = ("Unsupported language.", []) :=
  C7_unsupported_rejected "puts 1" "ruby" 15 "/tmp/w" "/srv"
    ⟨none, RunOutcome.completed 0 "1\n" "" 1⟩ (Server.Outcome.completed 0 "1\n" "")
    (by decide) (by decide)

/-- C3 (amended): the `timeout` parameter of `execute_code_in_docker` is the
wall-clock deadline — a run that hits it yields success=false, output exactly
"Execution timed out after {timeout} seconds" and reported elapsed time equal
to the budget, and the parameter's default is 15 — but the public `/execute`
endpoint never reads the request's `timeoutSeconds` field: it always calls
with the default, so every request runs under a 15-second budget. -/
theorem C3_timeout_budget :
    (∀ (code language : String) (t : Nat) (temp_dir : String) (config : LangConfig),
        App.lookupConfig language = some config →
        (appResult code language t temp_dir ⟨none, RunOutcome.timedOut⟩).success = false
        ∧ (appResult code language t temp_dir ⟨none, RunOutcome.timedOut⟩).output
            = "Execution timed out after " ++ toString t ++ " seconds"
        ∧ (appResult code language t temp_dir ⟨none, RunOutcome.timedOut⟩).execution_time
            = (t : Rat))
  ∧ (∀ (req : App.Request) (temp_dir : String) (env : Env),
        App.execute req temp_dir env
          = App.execute { req with timeoutSeconds := none } temp_dir env) := by
  constructor
  · intro code language t temp_dir config hl
    refine ⟨?_, ?_, ?_⟩ <;> simp [appResult, App.execute_code_in_docker, hl]
  · intro req temp_dir env
    rfl

/-- Witness for C3: a 2-second budget passed directly yields the 2-second
timeout message, and a request's `timeoutSeconds` field does not change the
endpoint's behaviour. -/
theorem C3_witness :
    (appResult "while True: pass" "python" 2 "/tmp/w" ⟨none, RunOutcome.timedOut⟩).output
        = "Execution timed out after 2 seconds"
  ∧ App.execute ⟨some "while True: pass", some "python", some 2⟩ "/tmp/w"
        ⟨none, RunOutcome.timedOut⟩
      = App.execute ⟨some "while True: pass", some "python", none⟩ "/tmp/w"
        ⟨none, RunOutcome.timedOut⟩ :=
  ⟨(C3_timeout_budget.1 "while True: pass" "python" 2 "/tmp/w"
      ⟨"code.py", "python:3.9-slim", ["python", "/app/code.py"]⟩ (by decide)).2.1,
   C3_timeout_budget.2 ⟨some "while True: pass", some "python", some 2⟩ "/tmp/w"
      ⟨none, RunOutcome.timedOut⟩⟩

/-- C3 counterexample: a request supplying `timeoutSeconds = 2` whose program
runs past the deadline is reported as timed out after 15 seconds, not after
the requested 2 seconds — the supplied value is not used. -/
theorem C3_counterexample :
    (App.execute ⟨some "while True: pass", some "python", some 2⟩ "/tmp/w"
        ⟨none, RunOutcome.timedOut⟩).1.outputOf
      = "Execution timed out after 15 seconds"
  ∧ (App.execute ⟨some "while True: pass", some "python", some 2⟩ "/tmp/w"
        ⟨none, RunOutcome.timedOut⟩).1.outputOf
      ≠ "Execution timed out after 2 seconds" := by
  constructor <;> decide

/-- C5 (amended, enhanced implementation): every container invocation built
by `app.py`'s `execute_code_in_docker` carries the full fixed security
posture and is determined by the workspace path and the language profile
alone — no field of the request can alter or omit any of the settings. (The
legacy `server.py` invocation carries none of them and mounts the file
writable; see the counterexample.) -/
theorem C5_security_posture (code language : String) (timeout : Nat)
    (temp_dir : String) (env : Env) (cmd : List String)
    (h : Event.spawnContainer cmd ∈ appEvents code language timeout temp_dir env) :
    (∃ config, App.lookupConfig language = some config
        ∧ cmd = App.docker_command temp_dir config)
  ∧ securityLocked temp_dir cmd := by
  have hsec : ∀ config : LangConfig,
      securityLocked temp_dir (App.docker_command temp_dir config) := by
    intro config
    refine ⟨by simp [App.docker_command], by simp [App.docker_command],
            by simp [App.docker_command], by simp [App.docker_command],
            by simp [App.docker_command], by simp [App.docker_command], ?_, ?_⟩
    · exact ⟨["docker", "run", "--rm", "--memory=128m", "--memory-swap=128m",
              "--cpus=0.5", "--network=none", "--cap-drop=ALL"],
             ["-v", temp_dir ++ ":/app:ro", config.docker_image] ++ config.run_command,
             by simp [App.docker_command]⟩
    · exact ⟨["docker", "run", "--rm", "--memory=128m", "--memory-swap=128m",
              "--cpus=0.5", "--network=none", "--cap-drop=ALL",
              "--security-opt", "no-new-privileges"],
             config.docker_image :: config.run_command,
             by simp [App.docker_command]⟩
  unfold appEvents at h
  cases hl : App.lookupConfig language with
  | none => simp [App.execute_code_in_docker, hl] at h
  | some config =>
    cases hw : env.writeFault with
    | some e => simp [App.execute_code_in_docker, hl, hw] at h
    | none =>
      cases ho : env.outcome with
      | completed rc out err el =>
          simp only [App.execute_code_in_docker, hl, hw, ho, List.cons_append,
            List.nil_append, List.mem_cons, List.not_mem_nil, or_false] at h
          rcases h with h | h | h | h <;>
            first
            | (injection h with hcmd
               exact ⟨⟨config, rfl, hcmd⟩, hcmd ▸ hsec config⟩)
            | injection h
      | timedOut =>
          simp only [App.execute_code_in_docker, hl, hw, ho, List.cons_append,
            List.nil_append, List.mem_cons, List.not_mem_nil, or_false] at h
          rcases h with h | h | h | h | h <;>
            first
            | (injection h with hcmd
               exact ⟨⟨config, rfl, hcmd⟩, hcmd ▸ hsec config⟩)
            | injection h
      | spawnError =>
          simp only [App.execute_code_in_docker, hl, hw, ho, List.cons_append,
            List.nil_append, List.mem_cons, List.not_mem_nil, or_false] at h
          rcases h with h | h | h | h <;>
            first
            | (injection h with hcmd
               exact ⟨⟨config, rfl, hcmd⟩, hcmd ▸ hsec config⟩)
            | injection h
      | otherFault msg el =>
          simp only [App.execute_code_in_docker, hl, hw, ho, List.cons_append,
            List.nil_append, List.mem_cons, List.not_mem_nil, or_false] at h
          rcases h with h | h | h | h <;>
            first
            | (injection h with hcmd
               exact ⟨⟨config, rfl, hcmd⟩, hcmd ▸ hsec config⟩)
            | injection h

/-- Witness for C5 at a concrete python run. -/
theorem C5_witness :
    (∃ config, App.lookupConfig "python" = some config
        ∧ App.docker_command "/tmp/x"
            ⟨"code.py", "python:3.9-slim", ["python", "/app/code.py"]⟩
          = App.docker_command "/tmp/x" config)
  ∧ securityLocked "/tmp/x"
      (App.docker_command "/tmp/x"
        ⟨"code.py", "python:3.9-slim", ["python", "/app/code.py"]⟩) :=
  C5_security_posture "print(1)" "python" 15 "/tmp/x"
    ⟨none, RunOutcome.completed 0 "1\n" "" 1⟩
    (App.docker_command "/tmp/x" ⟨"code.py", "python:3.9-slim", ["python", "/app/code.py"]⟩)
    (by decide)

/-- C5 counterexample: the legacy `server.py` invocation has none of the
fixed security settings — in particular no memory ceiling — and mounts the
source read-write. -/
theorem C5_counterexample :
    (Server.execute_code_in_docker "print(1)" "python" "/srv/app"
        (Server.Outcome.completed 0 "1\n" "")).2
      = [Event.writeFile "/srv/app/code.py" "print(1)",
         Event.spawnContainer
           ["docker", "run", "--rm", "-v", "/srv/app/code.py:/app/code.py",
            "python:3.9-slim", "python", "/app/code.py"]]
  ∧ "--memory=128m" ∉
      ["docker", "run", "--rm", "-v", "/srv/app/code.py:/app/code.py",
       "python:3.9-slim", "python", "/app/code.py"] := by
  constructor <;> decide

/-- C6 (amended): only the normal-exit branch of `app.py`'s
`execute_code_in_docker` carries the source fingerprint together with the
elapsed time rounded to 3 decimals; the timeout branch reports the budget
itself and omits the fingerprint, the spawn-error, unsupported-language and
write-failure branches report 0 and omit the fingerprint, and the
unexpected-fault branch reports the raw (unrounded) elapsed time and omits
the fingerprint. -/
theorem C6_result_metadata (code language : String) (timeout : Nat)
    (temp_dir : String) (env : Env) :
    (App.lookupConfig language = none →
        (appResult code language timeout temp_dir env).code_hash = none
        ∧ (appResult code language timeout temp_dir env).execution_time = 0)
  ∧ (∀ (config : LangConfig) e,
        App.lookupConfig language = some config → env.writeFault = some e →
        (appResult code language timeout temp_dir env).code_hash = none
        ∧ (appResult code language timeout temp_dir env).execution_time = 0)
  ∧ (∀ (config : LangConfig) rc out err el,
        App.lookupConfig language = some config → env.writeFault = none →
        env.outcome = RunOutcome.completed rc out err el →
        (appResult code language timeout temp_dir env).code_hash = some (code_hash code)
        ∧ (appResult code language timeout temp_dir env).execution_time = pyRound3 el)
  ∧ (∀ (config : LangConfig),
        App.lookupConfig language = some config → env.writeFault = none →
        env.outcome = RunOutcome.timedOut →
        (appResult code language timeout temp_dir env).code_hash = none
        ∧ (appResult code language timeout temp_dir env).execution_time = (timeout : Rat))
  ∧ (∀ (config : LangConfig),
        App.lookupConfig language = some config → env.writeFault = none →
        env.outcome = RunOutcome.spawnError →
        (appResult code language timeout temp_dir env).code_hash = none
        ∧ (appResult code language timeout temp_dir env).execution_time = 0)
  ∧ (∀ (config : LangConfig) msg el,
        App.lookupConfig language = some config → env.writeFault = none →
        env.outcome = RunOutcome.otherFault msg el →
        (appResult code language timeout temp_dir env).code_hash = none
        ∧ (appResult code language timeout temp_dir env).execution_time = el) := by
  refine ⟨?_, ?_, ?_, ?_, ?_, ?_⟩ <;> intros <;>
    constructor <;> simp [appResult, App.execute_code_in_docker, *]

/-- Witness for C6 at a concrete timed-out run. -/
theorem C6_witness :
    (appResult "while True: pass" "python" 15 "/tmp/w"
        ⟨none, RunOutcome.timedOut⟩).code_hash = none
  ∧ (appResult "while True: pass" "python" 15 "/tmp/w"
        ⟨none, RunOutcome.timedOut⟩).execution_time = ((15 : Nat) : Rat) :=
  (C6_result_metadata "while True: pass" "python" 15 "/tmp/w"
      ⟨none, RunOutcome.timedOut⟩).2.2.2.1
    ⟨"code.py", "python:3.9-slim", ["python", "/app/code.py"]⟩
    (by decide) rfl rfl

/-- C6 counterexample: a timed-out execution's result carries no fingerprint
at all (the `code_hash` key is absent), so not every outcome branch carries
the fingerprint of the submitted source. -/
theorem C6_counterexample :
    (appResult "while True: pass" "python" 2 "/tmp/w"
        ⟨none, RunOutcome.timedOut⟩).code_hash = none := by
  decide

/-- C8: the fingerprint is a pure deterministic function of the submitted
code alone — whatever the language, timeout or environment, a result either
omits the fingerprint or carries exactly `code_hash code` — and every
fingerprint is an 8-character string of lowercase hexadecimal digits. -/
theorem C8_fingerprint (code : String) :
    (code_hash code).length = 8
  ∧ ((code_hash code).data.all (fun c => hexDigits.contains c)) = true
  ∧ ∀ (language : String) (timeout : Nat) (temp_dir : String) (env : Env),
      (appResult code language timeout temp_dir env).code_hash = none
    ∨ (appResult code language timeout temp_dir env).code_hash = some (code_hash code) := by
  refine ⟨?_, ?_, ?_⟩
  · show (String.mk (((md5Digest (utf8Encode code)).flatMap byteHex).take 8)).length = 8
    rw [String.length_mk, List.length_take, length_flatMap_byteHex, md5Digest_length]
    decide
  · rw [List.all_eq_true]
    intro c hc
    have hc' : c ∈ (md5Digest (utf8Encode code)).flatMap byteHex :=
      List.mem_of_mem_take hc
    obtain ⟨b, -, hcb⟩ := List.mem_flatMap.1 hc'
    simp only [byteHex, List.mem_cons, List.not_mem_nil, or_false] at hcb
    rcases hcb with h | h
    · exact h ▸ hexChar_contains _
    · exact h ▸ hexChar_contains _
  · intro language timeout temp_dir env
    cases hl : App.lookupConfig language with
    | none => left; simp [appResult, App.execute_code_in_docker, hl]
    | some config =>
      cases hw : env.writeFault with
      | some e => left; simp [appResult, App.execute_code_in_docker, hl, hw]
      | none =>
        cases ho : env.outcome with
        | completed rc out err el =>
            right; simp [appResult, App.execute_code_in_docker, hl, hw, ho]
        | timedOut => left; simp [appResult, App.execute_code_in_docker, hl, hw, ho]
        | spawnError => left; simp [appResult, App.execute_code_in_docker, hl, hw, ho]
        | otherFault msg el =>
            left; simp [appResult, App.execute_code_in_docker, hl, hw, ho]

/-- C9 (amended): of the compiled languages, cpp and java use a single
compound `bash -c` invocation that compiles and then conditionally (via
`&&`) runs inside one container lifecycle, while go instead invokes
`go run`, a single non-shell command that compiles and runs internally;
in every case at most one container is spawned per call. -/
theorem C9_compiled_profiles :
    (App.lookupConfig "cpp").map LangConfig.run_command
        = some ["bash", "-c", "cd /app && g++ -o code.out code.cpp && ./code.out"]
  ∧ (App.lookupConfig "java").map LangConfig.run_command
        = some ["bash", "-c", "cd /app && javac Main.java && java Main"]
  ∧ (App.lookupConfig "go").map LangConfig.run_command
        = some ["go", "run", "/app/main.go"]
  ∧ ∀ (code language : String) (timeout : Nat) (temp_dir : String) (env : Env),
      ((appEvents code language timeout temp_dir env).countP isSpawn) ≤ 1 := by
  refine ⟨by decide, by decide, by decide, ?_⟩
  intro code language timeout temp_dir env
  unfold appEvents
  cases hl : App.lookupConfig language with
  | none => simp [App.execute_code_in_docker, hl]
  | some config =>
    cases hw : env.writeFault with
    | some e => simp [App.execute_code_in_docker, hl, hw, List.countP_cons, isSpawn]
    | none =>
      cases ho : env.outcome with
      | completed rc out err el =>
          simp [App.execute_code_in_docker, hl, hw, ho, List.countP_cons, isSpawn]
      | timedOut =>
          simp [App.execute_code_in_docker, hl, hw, ho, List.countP_cons, isSpawn]
      | spawnError =>
          simp [App.execute_code_in_docker, hl, hw, ho, List.countP_cons, isSpawn]
      | otherFault msg el =>
          simp [App.execute_code_in_docker, hl, hw, ho, List.countP_cons, isSpawn]

/-- C9 counterexample: go is a compiled language of the registry whose run
command is not a compound shell invocation — it is `go run`, not
`bash -c "..."`. -/
theorem C9_counterexample :
    (App.lookupConfig "go").map LangConfig.run_command
        = some ["go", "run", "/app/main.go"]
  ∧ ¬ compoundShell ["go", "run", "/app/main.go"] := by
  constructor
  · decide
  · rintro ⟨s, h⟩
    injection h with h1
    exact absurd h1 (by decide)

/-- C10 (amended, enhanced endpoint): `app.py`'s `/execute` treats an absent
language field as "python" and lowercases the supplied identifier before the
registry lookup, so matching is case-insensitive there; the legacy
`server.py` endpoint also defaults to "python" but passes the identifier
unchanged to the registry, so an uppercase spelling is rejected (see the
counterexample). -/
theorem C10_language_defaulting :
    (∀ (code : Option String) (ts : Option Nat) (temp_dir : String) (env : Env),
        App.execute ⟨code, none, ts⟩ temp_dir env
          = App.execute ⟨code, some "python", ts⟩ temp_dir env)
  ∧ (∀ (code : Option String) (lang : String) (ts : Option Nat)
        (temp_dir : String) (env : Env),
        App.execute ⟨code, some lang, ts⟩ temp_dir env
          = App.execute ⟨code, some (asciiLower lang), ts⟩ temp_dir env)
  ∧ (∀ (code cwd : String) (outcome : Server.Outcome),
        Server.execute code none cwd outcome
          = Server.execute code (some "python") cwd outcome) := by
  refine ⟨fun code ts temp_dir env => rfl, ?_, fun code cwd outcome => rfl⟩
  intro code lang ts temp_dir env
  show App.execute ⟨code, some lang, ts⟩ temp_dir env
      = App.execute ⟨code, some (asciiLower lang), ts⟩ temp_dir env
  unfold App.execute
  simp only [Option.getD_some]
  rw [asciiLower_idem]

/-- C10 counterexample: at the legacy `server.py` execute interface the
identifier "Python" is not lowercased, fails the registry lookup, and the
request is rejected as unsupported instead of resolving to the python
profile. -/
theorem C10_counterexample :
    Server.execute "print(1)" (some "Python") "/srv"
        (Server.Outcome.completed 0 "1\n" "")
      = ("Unsupported language.", []) := by
  decide
